import Mathlib

/-
Verification of the parameter-estimation script `fitting_optimization.py`
(p2d_pemfc repository).

The script fits free parameters of a PEM fuel-cell model to polarization
data by minimizing a weighted sum of squared residuals (chi-square) with
`scipy.optimize.minimize` (L-BFGS-B).  The experimental data, the
aggregation of per-loading simulated curves, the chi-square objective
functions for each parameterization mode, the parameter unpacking, and
the final mode dispatch are embedded here over the rationals (the source
literals are exact decimals).  The external simulator `pemfc_runner.py`
is re-executed by the script for each loading with parameters passed
through module globals; it is not part of the repository sources here,
so it is modelled as an explicit function argument `sim` taking the
current trial vector and the loading `w_Pt` and returning the
steady-state voltage sequence `dphi_ss`.  NumPy's elementwise arithmetic
on 1-d arrays, including its length-1 broadcasting rule and its shape
error for other length mismatches, is modelled by `npBinop`.
-/

namespace PemfcFit

/-- Shared current-density grid `x` (line 84): 11 set-points, the first one
being the open-circuit (zero current) point. -/
def x : List ℚ := [0.0, 0.05, 0.20, 0.40, 0.80, 1.0, 1.2, 1.5, 1.65, 1.85, 2.0]

/-- Observed voltages for w_Pt = 0.2 mg/cm^2 (line 85). -/
def y1 : List ℚ := [0.95, 0.85, 0.80, 0.77, 0.73, 0.72, 0.70, 0.68, 0.67, 0.65, 0.63]

/-- Error bars for w_Pt = 0.2 mg/cm^2, `np.array([...]) * 1e-3` (line 86). -/
def s1 : List ℚ := [0.1, 12, 7, 7, 12, 1, 8, 7, 7, 9, 9].map (fun v => v * 1e-3)

/-- Observed voltages for w_Pt = 0.1 mg/cm^2 (line 88). -/
def y2 : List ℚ := [0.93, 0.83, 0.79, 0.75, 0.71, 0.69, 0.67, 0.65, 0.64, 0.62, 0.60]

/-- Error bars for w_Pt = 0.1 mg/cm^2 (line 89). -/
def s2 : List ℚ := [0.1, 9, 7, 5, 7, 11, 11, 7, 9, 11, 11].map (fun v => v * 1e-3)

/-- Observed voltages for w_Pt = 0.05 mg/cm^2 (line 91). -/
def y3 : List ℚ := [0.92, 0.81, 0.76, 0.72, 0.67, 0.65, 0.63, 0.60, 0.59, 0.56, 0.54]

/-- Error bars for w_Pt = 0.05 mg/cm^2 (line 92). -/
def s3 : List ℚ := [0.1, 8, 6, 6, 7, 7, 5, 5, 6, 7, 7].map (fun v => v * 1e-3)

/-- Observed voltages for w_Pt = 0.025 mg/cm^2 (line 94). -/
def y4 : List ℚ := [0.91, 0.79, 0.72, 0.68, 0.63, 0.60, 0.57, 0.53, 0.50, 0.46, 0.43]

/-- Error bars for w_Pt = 0.025 mg/cm^2 (line 95). -/
def s4 : List ℚ := [0.1, 4, 10, 14, 13, 13, 19, 24, 25, 23, 24].map (fun v => v * 1e-3)

/-- Concatenated experimental vector
`y_data = np.hstack([y1[1:], y2[1:], y3[1:], y4[1:]])` (line 101): the
open-circuit point of each loading condition is dropped and the rest are
concatenated in the fixed loading order 0.2, 0.1, 0.05, 0.025 mg/cm^2. -/
def y_data : List ℚ := y1.drop 1 ++ y2.drop 1 ++ y3.drop 1 ++ y4.drop 1

/-- Concatenated weight vector `s_data` (line 102), same construction. -/
def s_data : List ℚ := s1.drop 1 ++ s2.drop 1 ++ s3.drop 1 ++ s4.drop 1

/-- Fixed loading order `w_Pt_vec = np.array([0.2, 0.1, 0.05, 0.025])` used by
every objective function (lines 111, 141, 180, 221). -/
def w_Pt_vec : List ℚ := [0.2, 0.1, 0.05, 0.025]

/-- NumPy elementwise binary operation on two 1-d arrays: equal lengths act
elementwise; an operand of length exactly 1 is broadcast across the other;
any other length mismatch raises a shape error, modelled as `none`. -/
def npBinop (f : ℚ → ℚ → ℚ) (a b : List ℚ) : Option (List ℚ) :=
  if a.length = b.length then some (List.zipWith f a b)
  else if b.length = 1 then some (a.map (fun v => f v b.headI))
  else if a.length = 1 then some (b.map (fun v => f a.headI v))
  else none

/-- The external simulator (the script re-executes `pemfc_runner.py` with the
trial parameters in module globals, lines 114, 151, 190, 230, and reads back
`dphi_ss`).  It is outside the repository sources, so it is a function
argument: trial vector and loading in, voltage sequence `dphi_ss` out. -/
abbrev Sim := List ℚ → ℚ → List ℚ

/-- Aggregated prediction: the loop
`for w in w_Pt_vec: ... y_model = np.hstack([y_model, dphi_ss[1:]])`
(lines 110 to 115 and likewise in the other objective functions) — each
simulated curve loses its first (open-circuit) element and the remainders
are concatenated in the order of `w_Pt_vec`. -/
def y_model (sim : Sim) (p : List ℚ) : List ℚ :=
  (w_Pt_vec.map (fun w => (sim p w).drop 1)).flatten

/-- The cost expression `chi_sq = sum((y_data - y_model)**2 / s_data**2)`
(line 117), with NumPy broadcasting semantics for the two binary
operations.  `none` models the NumPy shape error. -/
def chiSqCore (ym : List ℚ) : Option ℚ :=
  (npBinop (fun u v => u - v) y_data ym).bind fun diff =>
    (npBinop (fun u v => u / v) (diff.map fun d => d ^ 2) (s_data.map fun s => s ^ 2)).bind
      fun q => some q.sum

/-- The spec formula for the objective, written from its words:
chi_square = sum over i of (observed_i - predicted_i)^2 / weight_i^2.
This is the reference the source expression is compared against. -/
def chiSqSpecTerms (ym : List ℚ) : List ℚ :=
  List.zipWith (fun d s => d ^ 2 / s ^ 2)
    (List.zipWith (fun o m => o - m) y_data ym) s_data

/-- Parameter unpacking of mode tog = 0:
`R_naf_opt, theta_opt, i_o_opt, offset_opt = p_opt` (line 107).  The Python
statement raises unless `p_opt` has exactly 4 entries; `none` models that
error, which occurs before any simulation is started. -/
def bind0_1s (p : List ℚ) : Option (ℚ × ℚ × ℚ × ℚ) :=
  match p with
  | [rn, th, ec, off] => some (rn, th, ec, off)
  | _ => none

/-- Parameter unpacking of mode tog = 1:
`R_naf_opt, theta_opt, offset_opt, a, b = p_opt` (line 144), 5 entries. -/
def bind1_1s (p : List ℚ) : Option (ℚ × ℚ × ℚ × ℚ × ℚ) :=
  match p with
  | [rn, th, off, a, b] => some (rn, th, off, a, b)
  | _ => none

/-- Parameter unpacking of mode tog = 2:
`theta_opt, i_o_opt, offset_opt, c, d, e = p_opt` (line 183), 6 entries. -/
def bind2_1s (p : List ℚ) : Option (ℚ × ℚ × ℚ × ℚ × ℚ × ℚ) :=
  match p with
  | [th, ec, off, c, d, e] => some (th, ec, off, c, d, e)
  | _ => none

/-- Parameter unpacking of the 2-step objective:
`theta_opt, i_o_opt, offset_opt, A_opt = p_opt` (line 224) — only 4
assignment targets, although the `global` statement on line 223 also
declares `R_naf_opt` and the comment on line 220 names five parameters. -/
def bind0_2s (p : List ℚ) : Option (ℚ × ℚ × ℚ × ℚ) :=
  match p with
  | [th, ec, off, ak] => some (th, ec, off, ak)
  | _ => none

/-- Objective `chi_sq_func0_1s` (lines 104 to 120): unpack the 4 parameters
(an error for any other length, before the simulation loop), run the
simulator once per loading, aggregate, and evaluate the cost expression. -/
def chi_sq_func0_1s (sim : Sim) (p : List ℚ) : Option ℚ :=
  (bind0_1s p).bind fun _ => chiSqCore (y_model sim p)

/-- Objective `chi_sq_func1_1s` (lines 140 to 157), 5 parameters. -/
def chi_sq_func1_1s (sim : Sim) (p : List ℚ) : Option ℚ :=
  (bind1_1s p).bind fun _ => chiSqCore (y_model sim p)

/-- Objective `chi_sq_func2_1s` (lines 179 to 196), 6 parameters. -/
def chi_sq_func2_1s (sim : Sim) (p : List ℚ) : Option ℚ :=
  (bind2_1s p).bind fun _ => chiSqCore (y_model sim p)

/-- Objective `chi_sq_func0_2s` (lines 220 to 236), 4 assignment targets. -/
def chi_sq_func0_2s (sim : Sim) (p : List ℚ) : Option ℚ :=
  (bind0_2s p).bind fun _ => chiSqCore (y_model sim p)

/-- Initial guess for tog = 0, `p0_1s = np.array([45e-3, 45, 4e-6, 0.55])`
(line 55): R_naf, theta, i_o, offset. -/
def p0_1s : List ℚ := [45e-3, 45, 4e-6, 0.55]

/-- Bounds for tog = 0 (line 56), one (low, high) pair per parameter. -/
def b0_1s : List (ℚ × ℚ) := [(20e-3, 120e-3), (42.5, 80), (1e-6, 9e-6), (0.52, 1.0)]

/-- Initial guess for tog = 1 (line 59): R_naf, theta, offset, a, b. -/
def p1_1s : List ℚ := [55e-3, 45, 0.55, 24.2e-6, -0.40e-6]

/-- Bounds for tog = 1 (line 60). -/
def b1_1s : List (ℚ × ℚ) :=
  [(20e-3, 120e-3), (42.5, 80), (0.52, 1.0), (24.17e-6, 50e-6), (-0.5e-6, 1e-6)]

/-- Initial guess for tog = 2 (line 63): theta, i_o, offset, c, d, e. -/
def p2_1s : List ℚ := [50, 1.3e-6, 0.65, 0.929, -1.249, 35]

/-- Bounds for tog = 2 (line 64). -/
def b2_1s : List (ℚ × ℚ) :=
  [(42.5, 80), (5e-7, 9e-6), (0.52, 1.0), (0, 1.5), (-1.5, 0), (0, 120)]

/-- Initial guess for the 2-step mechanism, `p0_2s = np.array([])` (line 73):
left empty in the source. -/
def p0_2s : List ℚ := []

/-- Bounds for the 2-step mechanism, `b0_2s = np.array([])` (line 74). -/
def b0_2s : List (ℚ × ℚ) := []

/-- Diagnostic printed by `chi_sq_func1_1s`:
`print("i_o:", abs(a*w_Pt_vec + b))` (line 146) — the effective exchange
current density at each loading, absolute value applied. -/
def i_o_reported (a b : ℚ) : List ℚ := w_Pt_vec.map (fun w => |a * w + b|)

/-- Diagnostic printed by `chi_sq_func2_1s`:
`print("R_naf:", (c*w_Pt_vec**d + 35) *1e-3)` (line 185), at one loading
value `w`.  Note the literal 35 in the source where the unpacked fitting
parameter `e` should appear.  The exponent is a general real, so this lives
in the reals. -/
noncomputable def R_naf_reported (c d w : ℝ) : ℝ := (c * w ^ d + 35) * 1e-3

/-- The loading-dependent interfacial resistance as documented by the module
docstring (line 32) and the spec: `R_naf = (c*w_Pt^d + e)*1e-3` with c, d, e
the fitting parameters. -/
noncomputable def R_naf_docform (c d e w : ℝ) : ℝ := (c * w ^ d + e) * 1e-3

/-- The four `minimize` calls the dispatch can reach (lines 240 to 247). -/
inductive Branch
  | run0_1s
  | run1_1s
  | run2_1s
  | run0_2s
  deriving DecidableEq

/-- Outcome of the module-level dispatch: either one of the four `minimize`
calls runs, or — since the `if/elif` chain on lines 240 to 247 has no `else`
branch and contains no `raise` — no branch matches, `res` is never assigned,
and the script continues to its end without any error. -/
inductive RunOutcome
  | optimized (branch : Branch)
  | fellThrough
  deriving DecidableEq

/-- The dispatch conditions of lines 240 to 247, in order:
`rxn_mech == "1s" and tog == 0/1/2`, then `rxn_mech == "2s"`.  `none` is the
fall-through of the chain (no branch taken). -/
def selectBranch (rxn_mech : String) (tog : ℤ) : Option Branch :=
  if rxn_mech = "1s" ∧ tog = 0 then some Branch.run0_1s
  else if rxn_mech = "1s" ∧ tog = 1 then some Branch.run1_1s
  else if rxn_mech = "1s" ∧ tog = 2 then some Branch.run2_1s
  else if rxn_mech = "2s" then some Branch.run0_2s
  else none

/-- What the script does at module level for a given configuration pair. -/
def runDispatch (rxn_mech : String) (tog : ℤ) : RunOutcome :=
  match selectBranch rxn_mech tog with
  | some branch => RunOutcome.optimized branch
  | none => RunOutcome.fellThrough

/-- The mode selected in the source as committed (line 67). -/
def tog : ℤ := 2

/-- Assignment targets of the unpacking statement on line 224 of the 2-step
objective. -/
def targets_0_2s : List String := ["theta_opt", "i_o_opt", "offset_opt", "A_opt"]

/-- Names declared by the `global` statement on line 223 of the 2-step
objective. -/
def globals_0_2s : List String :=
  ["w_Pt", "R_naf_opt", "theta_opt", "i_o_opt", "offset_opt", "A_opt"]

/-- Parameters named by the comment on line 220:
`p_opt[:] = R_naf, theta, i_o, offset, A`. -/
def doc_params_0_2s : List String := ["R_naf", "theta", "i_o", "offset", "A"]

/-- A simulator stub whose curves all match the 11-point grid; used to
instantiate hypotheses at concrete inputs. -/
def simGrid : Sim := fun _ _ => y1

/-- A simulator stub that reproduces the observed data exactly: for each
loading it returns that loading's observed curve. -/
def simFit : Sim := fun _ w =>
  if w = 0.2 then y1 else if w = 0.1 then y2 else if w = 0.05 then y3 else y4

/-- A simulator return pattern whose aggregation has total length 1: the
0.2 condition contributes one post-exclusion point and the other three
contribute none. -/
def simMismatch : Sim := fun _ w => if w = 0.2 then [0.9, 0.8] else [0.7]

/-- A simulator stub for the determinism check. -/
def simA : Sim := fun _ _ => [1, 2]

/-- A second simulator stub, syntactically different from `simA` but equal to
it at every loading the objective ever queries. -/
def simB : Sim := fun _ w => if w = 0.3 then [9] else [1, 2]

lemma y_data_length : y_data.length = 40 := by decide

lemma s_data_length : s_data.length = 40 := by decide

lemma npBinop_of_length {f : ℚ → ℚ → ℚ} {a b : List ℚ} (h : a.length = b.length) :
    npBinop f a b = some (List.zipWith f a b) := by
  unfold npBinop
  rw [if_pos h]

lemma zipWith_sq_div : ∀ l1 l2 : List ℚ,
    List.zipWith (fun u v => u / v) (l1.map fun d => d ^ 2) (l2.map fun s => s ^ 2)
      = List.zipWith (fun d s => d ^ 2 / s ^ 2) l1 l2
  | [], _ => by simp
  | _ :: _, [] => by simp
  | a :: t, b :: u => by simp [zipWith_sq_div t u]

lemma chiSqCore_eq (ym : List ℚ) (hlen : ym.length = y_data.length) :
    chiSqCore ym = some (chiSqSpecTerms ym).sum := by
  unfold chiSqCore
  rw [npBinop_of_length hlen.symm, Option.some_bind]
  have hd : ((List.zipWith (fun u v : ℚ => u - v) y_data ym).map fun d => d ^ 2).length
      = (s_data.map fun s : ℚ => s ^ 2).length := by
    rw [List.length_map, List.length_map, List.length_zipWith, hlen, min_self,
      y_data_length, s_data_length]
  rw [npBinop_of_length hd, Option.some_bind]
  rw [zipWith_sq_div]
  rfl

lemma zipWith_div_nonneg : ∀ l1 l2 : List ℚ, (∀ u ∈ l1, 0 ≤ u) → (∀ v ∈ l2, 0 ≤ v) →
    ∀ r ∈ List.zipWith (fun u v => u / v) l1 l2, 0 ≤ r
  | [], _, _, _ => by simp
  | _ :: _, [], _, _ => by simp
  | a :: t, b :: u, h1, h2 => by
    intro r hr
    rw [List.zipWith_cons_cons] at hr
    rcases List.mem_cons.mp hr with h | h
    · rw [h]
      exact div_nonneg (h1 a (List.mem_cons_self a t)) (h2 b (List.mem_cons_self b u))
    · exact zipWith_div_nonneg t u (fun z hz => h1 z (List.mem_cons_of_mem a hz))
        (fun z hz => h2 z (List.mem_cons_of_mem b hz)) r h

lemma npBinop_div_nonneg {l1 l2 q : List ℚ} (h1 : ∀ u ∈ l1, 0 ≤ u) (h2 : ∀ v ∈ l2, 0 ≤ v)
    (h : npBinop (fun u v => u / v) l1 l2 = some q) : ∀ r ∈ q, 0 ≤ r := by
  unfold npBinop at h
  split_ifs at h with ha hb hc
  · rw [Option.some_inj] at h
    subst h
    exact zipWith_div_nonneg l1 l2 h1 h2
  · rw [Option.some_inj] at h
    subst h
    obtain ⟨v, rfl⟩ := List.length_eq_one.mp hb
    intro r hr
    obtain ⟨u, hu, rfl⟩ := List.mem_map.mp hr
    exact div_nonneg (h1 u hu) (h2 _ (List.mem_singleton_self v))
  · rw [Option.some_inj] at h
    subst h
    obtain ⟨u, rfl⟩ := List.length_eq_one.mp hc
    intro r hr
    obtain ⟨v, hv, rfl⟩ := List.mem_map.mp hr
    exact div_nonneg (h1 _ (List.mem_singleton_self u)) (h2 v hv)

lemma chiSqCore_nonneg {ym : List ℚ} {r : ℚ} (h : chiSqCore ym = some r) : 0 ≤ r := by
  unfold chiSqCore at h
  cases hdiff : npBinop (fun u v : ℚ => u - v) y_data ym with
  | none => rw [hdiff, Option.none_bind] at h; cases h
  | some diff =>
    rw [hdiff, Option.some_bind] at h
    cases hq : npBinop (fun u v : ℚ => u / v) (diff.map fun d => d ^ 2)
        (s_data.map fun s => s ^ 2) with
    | none => rw [hq, Option.none_bind] at h; cases h
    | some q =>
      rw [hq, Option.some_bind, Option.some_inj] at h
      subst h
      refine List.sum_nonneg (npBinop_div_nonneg ?_ ?_ hq)
      · intro u hu
        obtain ⟨d, _, rfl⟩ := List.mem_map.mp hu
        exact sq_nonneg d
      · intro v hv
        obtain ⟨s, _, rfl⟩ := List.mem_map.mp hv
        exact sq_nonneg s

lemma terms_self_zero : ∀ l s : List ℚ,
    (List.zipWith (fun d t => d ^ 2 / t ^ 2)
      (List.zipWith (fun o m => o - m) l l) s).sum = 0
  | [], _ => by simp
  | _ :: _, [] => by simp
  | a :: l, b :: s => by
    simp only [List.zipWith_cons_cons, List.sum_cons]
    rw [terms_self_zero l s]
    simp

lemma bind0_1s_isSome : ∀ p : List ℚ, (bind0_1s p).isSome = true ↔ p.length = 4
  | [] => by simp [bind0_1s]
  | [_] => by simp [bind0_1s]
  | [_, _] => by simp [bind0_1s]
  | [_, _, _] => by simp [bind0_1s]
  | [_, _, _, _] => by simp [bind0_1s]
  | _ :: _ :: _ :: _ :: _ :: _ => by simp [bind0_1s]

lemma bind1_1s_isSome : ∀ p : List ℚ, (bind1_1s p).isSome = true ↔ p.length = 5
  | [] => by simp [bind1_1s]
  | [_] => by simp [bind1_1s]
  | [_, _] => by simp [bind1_1s]
  | [_, _, _] => by simp [bind1_1s]
  | [_, _, _, _] => by simp [bind1_1s]
  | [_, _, _, _, _] => by simp [bind1_1s]
  | _ :: _ :: _ :: _ :: _ :: _ :: _ => by simp [bind1_1s]

lemma bind2_1s_isSome : ∀ p : List ℚ, (bind2_1s p).isSome = true ↔ p.length = 6
  | [] => by simp [bind2_1s]
  | [_] => by simp [bind2_1s]
  | [_, _] => by simp [bind2_1s]
  | [_, _, _] => by simp [bind2_1s]
  | [_, _, _, _] => by simp [bind2_1s]
  | [_, _, _, _, _] => by simp [bind2_1s]
  | [_, _, _, _, _, _] => by simp [bind2_1s]
  | _ :: _ :: _ :: _ :: _ :: _ :: _ :: _ => by simp [bind2_1s]

lemma bind0_2s_isSome : ∀ p : List ℚ, (bind0_2s p).isSome = true ↔ p.length = 4
  | [] => by simp [bind0_2s]
  | [_] => by simp [bind0_2s]
  | [_, _] => by simp [bind0_2s]
  | [_, _, _] => by simp [bind0_2s]
  | [_, _, _, _] => by simp [bind0_2s]
  | _ :: _ :: _ :: _ :: _ :: _ => by simp [bind0_2s]

lemma y_model_length (sim : Sim) (p : List ℚ)
    (hsim : ∀ w ∈ w_Pt_vec, (sim p w).length = 11) : (y_model sim p).length = 40 := by
  have h2 := hsim 0.2 (by simp [w_Pt_vec])
  have h1 := hsim 0.1 (by simp [w_Pt_vec])
  have h05 := hsim 0.05 (by simp [w_Pt_vec])
  have h025 := hsim 0.025 (by simp [w_Pt_vec])
  simp [y_model, w_Pt_vec, List.length_flatten, h2, h1, h05, h025]

/-- C1: the objective evaluates to exactly the spec formula
chi_square = sum over i of (observed_i - predicted_i)^2 / weight_i^2 over the
aggregated vectors whenever the aggregated lengths agree; every chi-square
value it returns is non-negative; it is exactly 0 when the aggregated
prediction equals the aggregated observation element-for-element; and both
cited one-step objectives reduce to this cost expression once their
parameter unpacking succeeds. -/
theorem c1_chi_square_formula (ym : List ℚ) :
    (ym.length = y_data.length → chiSqCore ym = some (chiSqSpecTerms ym).sum) ∧
    (∀ r : ℚ, chiSqCore ym = some r → 0 ≤ r) ∧
    (ym = y_data → chiSqCore ym = some 0) ∧
    (∀ (sim : Sim) (p : List ℚ), (bind0_1s p).isSome = true →
      chi_sq_func0_1s sim p = chiSqCore (y_model sim p)) ∧
    (∀ (sim : Sim) (p : List ℚ), (bind2_1s p).isSome = true →
      chi_sq_func2_1s sim p = chiSqCore (y_model sim p)) := by
  refine ⟨fun hlen => chiSqCore_eq ym hlen, fun r h => chiSqCore_nonneg h, ?_, ?_, ?_⟩
  · intro h
    subst h
    rw [chiSqCore_eq y_data rfl]
    exact congrArg some (terms_self_zero y_data s_data)
  · intro sim p h
    obtain ⟨t4, ht⟩ := Option.isSome_iff_exists.mp h
    unfold chi_sq_func0_1s
    rw [ht, Option.some_bind]
  · intro sim p h
    obtain ⟨t6, ht⟩ := Option.isSome_iff_exists.mp h
    unfold chi_sq_func2_1s
    rw [ht, Option.some_bind]

/-- C1 witness: at the observed data itself the cost is exactly 0. -/
theorem c1_chi_square_formula_witness : chiSqCore y_data = some 0 :=
  (c1_chi_square_formula y_data).2.2.1 rfl

/-- C2 counterexample: a simulator return pattern whose aggregation has
length 1 (condition 0.2 contributes one post-exclusion point, the other
conditions none) mismatches the 40-point experimental vector, yet the cost
computation succeeds — NumPy broadcasting silently repeats the single
predicted value across all 40 observation points instead of rejecting the
mismatch. -/
theorem c2_broadcast_counterexample :
    (y_model simMismatch p2_1s).length ≠ y_data.length ∧
    (chi_sq_func2_1s simMismatch p2_1s).isSome = true := by
  have hym : y_model simMismatch p2_1s = [0.8] := by
    norm_num [y_model, simMismatch, w_Pt_vec]
  constructor
  · rw [hym, y_data_length]
    decide
  · unfold chi_sq_func2_1s
    rw [hym]
    decide

/-- C2 (amended): per-condition simulated curves are collected with their
open-circuit element dropped and concatenated in the fixed loading order
0.2, 0.1, 0.05, 0.025 — the same order in which the observed vector is
pre-concatenated — so when every curve matches the 11-point grid the two
aggregated vectors have identical length; an aggregated-length mismatch is
rejected with an error unless the predicted vector has length exactly 1,
which NumPy broadcasting silently accepts. -/
theorem c2_aggregation_amended (sim : Sim) (p : List ℚ)
    (hsim : ∀ w ∈ w_Pt_vec, (sim p w).length = x.length) :
    y_model sim p = (sim p 0.2).drop 1 ++ (sim p 0.1).drop 1
      ++ (sim p 0.05).drop 1 ++ (sim p 0.025).drop 1 ∧
    y_data = y1.drop 1 ++ y2.drop 1 ++ y3.drop 1 ++ y4.drop 1 ∧
    (y_model sim p).length = y_data.length ∧
    (∀ ym : List ℚ, ym.length ≠ y_data.length → ym.length ≠ 1 → chiSqCore ym = none) ∧
    (∀ v : ℚ, (chiSqCore [v]).isSome = true) := by
  have hsim11 : ∀ w ∈ w_Pt_vec, (sim p w).length = 11 :=
    fun w hw => (hsim w hw).trans (by decide)
  refine ⟨?_, rfl, ?_, ?_, ?_⟩
  · simp [y_model, w_Pt_vec]
  · rw [y_model_length sim p hsim11, y_data_length]
  · intro ym hne h1
    unfold chiSqCore npBinop
    rw [if_neg (fun hc => hne (Eq.symm hc)), if_neg h1, if_neg (by decide : ¬y_data.length = 1)]
    rfl
  · intro v
    unfold chiSqCore
    have h1 : npBinop (fun u w : ℚ => u - w) y_data [v]
        = some (y_data.map fun u => u - [v].headI) := by
      unfold npBinop
      rw [if_neg (by rw [y_data_length]; simp), if_pos (show [v].length = 1 from rfl)]
    rw [h1, Option.some_bind,
      npBinop_of_length (by rw [List.length_map, List.length_map, List.length_map,
        y_data_length, s_data_length])]
    rfl

/-- C2 witness: with every simulated curve on the 11-point grid, the
aggregated prediction has the length of the experimental vector. -/
theorem c2_aggregation_amended_witness :
    (y_model simGrid p0_1s).length = y_data.length :=
  (c2_aggregation_amended simGrid p0_1s (by decide)).2.2.1

/-- C3: the loading-dependent interfacial resistance diagnostic printed by
`chi_sq_func2_1s` (line 185) hard-codes the literal 35 where the module
docstring and the spec use the fitted parameter `e`: the reported value
always exceeds the documented form `(c*w_Pt^d + e)*1e-3` by `(35 - e)*1e-3`,
and in particular at loading 0.2 with c = 0.915, d = -1.231, e = 34.54 the
two differ. -/
theorem c3_Rnaf_reported_vs_documented :
    (∀ c d e w : ℝ, R_naf_reported c d w - R_naf_docform c d e w = (35 - e) * 1e-3) ∧
    R_naf_reported 0.915 (-1.231) 0.2 ≠ R_naf_docform 0.915 (-1.231) 34.54 0.2 := by
  have hgen : ∀ c d e w : ℝ,
      R_naf_reported c d w - R_naf_docform c d e w = (35 - e) * 1e-3 := by
    intro c d e w
    unfold R_naf_reported R_naf_docform
    ring
  refine ⟨hgen, fun heq => ?_⟩
  have h := hgen 0.915 (-1.231) 34.54 0.2
  rw [heq, sub_self] at h
  norm_num at h

/-- C4 counterexample: the pair ("1s", tog = 3) is not a recognized
configuration, and the dispatch neither raises a configuration error nor
runs any optimization: the `if/elif` chain (which has no `else` and no
`raise`) matches no branch, `res` is never assigned, and the script falls
through to its end. -/
theorem c4_unrecognized_pair_counterexample :
    runDispatch "1s" 3 = RunOutcome.fellThrough ∧ selectBranch "1s" 3 = none := by
  exact ⟨rfl, rfl⟩

/-- C4 (amended): an unrecognized (mechanism, mode) pair matches none of the
four dispatch branches, so the optimizer is never invoked and no error is
raised — the run silently performs no optimization instead of failing fast;
recognized pairs ("1s" with tog 0, 1 or 2, and "2s") are exactly the ones
that reach a `minimize` call. -/
theorem c4_dispatch_amended (m : String) (t : ℤ) :
    (selectBranch m t = none ↔ ¬((m = "1s" ∧ (t = 0 ∨ t = 1 ∨ t = 2)) ∨ m = "2s")) ∧
    (runDispatch m t = RunOutcome.fellThrough ↔ selectBranch m t = none) := by
  constructor
  · unfold selectBranch
    split_ifs with h1 h2 h3 h4
    · simp [h1.1, h1.2]
    · simp [h2.1, h2.2]
    · simp [h3.1, h3.2]
    · simp [h4]
    · constructor
      · intro _ hcon
        rcases hcon with ⟨hm, ht⟩ | hm
        · rcases ht with ht | ht | ht
          · exact h1 ⟨hm, ht⟩
          · exact h2 ⟨hm, ht⟩
          · exact h3 ⟨hm, ht⟩
        · exact h4 hm
      · intro _
        rfl
  · unfold runDispatch
    cases h : selectBranch m t <;> simp [h]

/-- C5: the Mode B diagnostic reports, for every loading in `w_Pt_vec`, the
effective exchange current density as the absolute value of a*w_Pt + b; at
loading 0.1 with a = 24.17e-6 and b = -0.434e-6 the reported value equals
abs(24.17e-6*0.1 - 0.434e-6), which is 1.983e-6. -/
theorem c5_io_diagnostic :
    (∀ a b : ℚ, i_o_reported a b
      = [|a * 0.2 + b|, |a * 0.1 + b|, |a * 0.05 + b|, |a * 0.025 + b|]) ∧
    (i_o_reported (24.17e-6) (-0.434e-6)).get? 1
      = some |(24.17e-6 : ℚ) * 0.1 - 0.434e-6| ∧
    |(24.17e-6 : ℚ) * 0.1 - 0.434e-6| = 1.983e-6 := by
  refine ⟨fun a b => rfl, ?_, ?_⟩
  · show some |(24.17e-6 : ℚ) * 0.1 + -0.434e-6| = some |(24.17e-6 : ℚ) * 0.1 - 0.434e-6|
    exact congrArg (fun z => some |z|) (by ring)
  · have h : (24.17e-6 : ℚ) * 0.1 - 0.434e-6 = 1.983e-6 := by norm_num
    rw [h, abs_of_pos (by norm_num)]

/-- C6: the aggregated experimental and weight vectors each have length 40,
and with 4 loading conditions whose simulated curves sit on the 11-point
grid (10 points each once the open-circuit point is dropped) the aggregated
prediction also has length 40 and the returned chi-square is the sum of a
list of exactly 40 weighted squared residual terms. -/
theorem c6_forty_points (sim : Sim) (p : List ℚ) (hp : p.length = 4)
    (hsim : ∀ w ∈ w_Pt_vec, (sim p w).length = 11) :
    y_data.length = 40 ∧ s_data.length = 40 ∧ (y_model sim p).length = 40 ∧
    (chiSqSpecTerms (y_model sim p)).length = 40 ∧
    chi_sq_func0_1s sim p = some (chiSqSpecTerms (y_model sim p)).sum := by
  have hym := y_model_length sim p hsim
  have hterms : (chiSqSpecTerms (y_model sim p)).length = 40 := by
    unfold chiSqSpecTerms
    rw [List.length_zipWith, List.length_zipWith, y_data_length, s_data_length, hym]
    decide
  obtain ⟨t4, ht⟩ := Option.isSome_iff_exists.mp ((bind0_1s_isSome p).mpr hp)
  refine ⟨y_data_length, s_data_length, hym, hterms, ?_⟩
  unfold chi_sq_func0_1s
  rw [ht, Option.some_bind, chiSqCore_eq _ (by rw [hym, y_data_length])]

/-- C6 witness: a simulator whose curves all match the 11-point grid yields
the 40-term cost sum at the committed initial guess. -/
theorem c6_forty_points_witness :
    chi_sq_func0_1s simGrid p0_1s = some (chiSqSpecTerms (y_model simGrid p0_1s)).sum :=
  (c6_forty_points simGrid p0_1s (by decide) (by decide)).2.2.2.2

/-- C7: for each one-step mode the initial-guess vector and the bounds
vector have equal length (4, 5 and 6 respectively), that length is exactly
the number of parameters the mode's objective unpacks, and a vector of any
other length makes the objective fail before any simulation runs (for every
simulator, the unpacking error `none` is returned). -/
theorem c7_guess_bound_lengths :
    (p0_1s.length = 4 ∧ b0_1s.length = 4) ∧
    (p1_1s.length = 5 ∧ b1_1s.length = 5) ∧
    (p2_1s.length = 6 ∧ b2_1s.length = 6) ∧
    (∀ p : List ℚ, (bind0_1s p).isSome = true ↔ p.length = 4) ∧
    (∀ p : List ℚ, (bind1_1s p).isSome = true ↔ p.length = 5) ∧
    (∀ p : List ℚ, (bind2_1s p).isSome = true ↔ p.length = 6) ∧
    (∀ (sim : Sim) (p : List ℚ), p.length ≠ 4 → chi_sq_func0_1s sim p = none) ∧
    (∀ (sim : Sim) (p : List ℚ), p.length ≠ 5 → chi_sq_func1_1s sim p = none) ∧
    (∀ (sim : Sim) (p : List ℚ), p.length ≠ 6 → chi_sq_func2_1s sim p = none) := by
  refine ⟨⟨by decide, by decide⟩, ⟨by decide, by decide⟩, ⟨by decide, by decide⟩,
    bind0_1s_isSome, bind1_1s_isSome, bind2_1s_isSome, ?_, ?_, ?_⟩
  · intro sim p hp
    have hb : bind0_1s p = none := by
      rcases hE : bind0_1s p with _ | v
      · rfl
      · have := (bind0_1s_isSome p).mp (by rw [hE]; rfl)
        exact absurd this hp
    unfold chi_sq_func0_1s
    rw [hb, Option.none_bind]
  · intro sim p hp
    have hb : bind1_1s p = none := by
      rcases hE : bind1_1s p with _ | v
      · rfl
      · have := (bind1_1s_isSome p).mp (by rw [hE]; rfl)
        exact absurd this hp
    unfold chi_sq_func1_1s
    rw [hb, Option.none_bind]
  · intro sim p hp
    have hb : bind2_1s p = none := by
      rcases hE : bind2_1s p with _ | v
      · rfl
      · have := (bind2_1s_isSome p).mp (by rw [hE]; rfl)
        exact absurd this hp
    unfold chi_sq_func2_1s
    rw [hb, Option.none_bind]

/-- C8: the objective is a function of the trial vector and of the
simulator's answers at the four loading conditions only — two simulators
that agree there give identical chi-square values at every trial vector,
and any deterministic optimizer driver (a function of the objective it is
handed) reports the same optimum for both. -/
theorem c8_determinism (sim1 sim2 : Sim)
    (hsim : ∀ p : List ℚ, ∀ w ∈ w_Pt_vec, sim1 p w = sim2 p w) :
    (∀ p : List ℚ, chi_sq_func0_1s sim1 p = chi_sq_func0_1s sim2 p) ∧
    (∀ driver : (List ℚ → Option ℚ) → List ℚ × Option ℚ,
      driver (chi_sq_func0_1s sim1) = driver (chi_sq_func0_1s sim2)) := by
  have hym : ∀ p, y_model sim1 p = y_model sim2 p := by
    intro p
    unfold y_model
    exact congrArg List.flatten (List.map_congr_left fun w hw => by rw [hsim p w hw])
  have hfun : ∀ p, chi_sq_func0_1s sim1 p = chi_sq_func0_1s sim2 p := by
    intro p
    unfold chi_sq_func0_1s
    rw [hym p]
  exact ⟨hfun, fun driver => congrArg driver (funext hfun)⟩

/-- C8 witness: two syntactically different simulators that agree on the
four loadings give the same objective value at the committed initial
guess. -/
theorem c8_determinism_witness :
    chi_sq_func0_1s simA p0_1s = chi_sq_func0_1s simB p0_1s := by
  refine (c8_determinism simA simB ?_).1 p0_1s
  intro p w hw
  have hcases : w = 0.2 ∨ w = 0.1 ∨ w = 0.05 ∨ w = 0.025 := by
    simpa [w_Pt_vec] using hw
  rcases hcases with rfl | rfl | rfl | rfl <;> norm_num [simA, simB]

/-- C10: the two-step objective assigns only four parameters (theta, i_o,
offset, A) even though its `global` statement and its comment name five
(including R_naf), so the interfacial-resistance input is never bound; and
with the provided empty `p0_2s` the four-way unpacking fails — for every
simulator the objective returns the unpacking error with no simulation
invoked. -/
theorem c10_two_step_unpacking :
    targets_0_2s.length = 4 ∧
    ("R_naf_opt" ∈ globals_0_2s ∧ "R_naf_opt" ∉ targets_0_2s) ∧
    doc_params_0_2s.length = 5 ∧
    (∀ p : List ℚ, (bind0_2s p).isSome = true ↔ p.length = 4) ∧
    bind0_2s p0_2s = none ∧
    (∀ sim : Sim, chi_sq_func0_2s sim p0_2s = none) :=
  ⟨by decide, ⟨by decide, by decide⟩, by decide, bind0_2s_isSome, rfl, fun _ => rfl⟩

end PemfcFit
